import Mathlib

/-!
Verification of the Zephyr `uart_mux` console driver
(`drivers/console/uart_mux.c`): a shallow embedding of its data model and
operations, with theorems about buffered I/O, attach/allocation lifecycle
and the interrupt-readiness emulation.

Modelling conventions:
* C pointers that may be NULL become `Option _`; a NULL `struct device *`
  argument is `none`.
* Byte buffers become `List Nat`.
* Registered callback pointers are abstracted to a `Bool` (registered or
  not); submitting a `k_work` item to the mux work queue is recorded as a
  `Bool` effect in the operation's result.
* The external GSM-mux protocol adapter (`gsm_mux.c`, an external
  collaborator outside this driver) enters as oracle parameters: the
  result of `gsm_mux_create` is an `Option Nat` (adapter instance or
  NULL) and the result of `gsm_dlci_create` is an `Except Errno Nat`
  (channel handle or error). Direct `gsm_dlci_send` calls are recorded
  in the operation's result.
* Error codes: the driver returns negated errno values; they are
  represented by the `Errno` inductive.
-/

deriving instance DecidableEq for Except

/-- Error codes returned (negated) by the driver. -/
inductive Errno
  | EINVAL
  | ENOENT
  | ENOMEM
  | ENOTSUP
deriving DecidableEq, Inhabited

/-- Modelled from the spec: the RingChannel (the Zephyr `ring_buf` byte
API from `sys/ring_buffer.h`, which is not among the sources under
verification). Per the spec it is a fixed-capacity FIFO byte queue:
`put` stores the longest prefix of its input that fits the free space
and returns how many bytes it stored (excess dropped), and `get`
removes up to `n` bytes from the front in FIFO order. -/
structure RingBuf where
  capacity : Nat
  data : List Nat
deriving DecidableEq, Inhabited

/-- Free space left in the ring buffer (`ring_buf_space_get`). -/
def RingBuf.space (rb : RingBuf) : Nat := rb.capacity - rb.data.length

/-- `ring_buf_put`: append the prefix of `bytes` that fits the free
space; return the new buffer and the number of bytes stored. -/
def RingBuf.put (rb : RingBuf) (bytes : List Nat) : RingBuf × Nat :=
  (⟨rb.capacity, rb.data ++ bytes.take rb.space⟩, (bytes.take rb.space).length)

/-- `ring_buf_get`: remove up to `n` bytes from the front of the buffer;
return the new buffer and the removed bytes in FIFO order. -/
def RingBuf.get (rb : RingBuf) (n : Nat) : RingBuf × List Nat :=
  (⟨rb.capacity, rb.data.drop n⟩, rb.data.take n)

/-- `ring_buf_is_empty`. -/
def RingBuf.isEmpty (rb : RingBuf) : Bool := rb.data.isEmpty

/-- `enum uart_mux_status_code`: connection status of a muxed UART. -/
inductive UartMuxStatus
  | UNKNOWN
  | CONFIGURED
  | CONNECTED
  | DISCONNECTED
deriving DecidableEq, Inhabited

/-- One `struct uart_mux`: a slot for a physical (real) UART shared by
the muxed UARTs. `uart` is the bound hardware device (NULL when the
slot is unbound), `mux` the lazily created GSM-mux adapter instance,
`init_done` the atomic one-time-init flag. The `rx_work` item, the
transmit mutex and the ISR scratch buffer are concurrency plumbing with
no bearing on the claims and are not carried in the state. -/
structure UartMux where
  uart : Option Nat
  mux : Option Nat
  init_done : Bool
  rx_ringbuf : RingBuf
deriving DecidableEq, Inhabited

/-- One `struct uart_mux_dev_data`: the per-virtual-channel state.
`dev` is the back-pointer set by `uart_mux_init` (none while NULL),
`cb` tells whether an ISR-style callback is registered
(`uart_irq_callback_set`), `attach_cb` whether an attach notification
callback was supplied, `dlci` the protocol channel handle. -/
structure UartMuxDevData where
  dev : Option Nat
  real_uart : Option Nat
  cb : Bool
  attach_cb : Bool
  tx_ringbuf : RingBuf
  rx_ringbuf : RingBuf
  status : UartMuxStatus
  dlci : Option Nat
  rx_enabled : Bool
  tx_enabled : Bool
  rx_ready : Bool
  tx_ready : Bool
  in_use : Bool
deriving DecidableEq, Inhabited

/-- Index of the first element of a list satisfying `p`, mirroring the
driver's linear scans over its device list and its real-UART pool. -/
def find_idx {α : Type} (p : α → Bool) : List α → Option Nat
  | [] => none
  | x :: xs => if p x then some 0 else (find_idx p xs).map (· + 1)

/-- `uart_mux_fifo_fill(dev, tx_data, len)`: the buffered write path.
Result: the returned value (count accepted or error), the device state
after the call, and whether the TX-drain work item was submitted to the
mux work queue. -/
def uart_mux_fifo_fill (dev : Option UartMuxDevData) (tx_data : List Nat) :
    Except Errno Nat × Option UartMuxDevData × Bool :=
  match dev with
  | none => (.error .EINVAL, none, false)
  | some d =>
    if d.dev = none then (.error .ENOENT, some d, false)
    else if d.status ≠ UartMuxStatus.CONNECTED then (.ok 0, some d, false)
    else
      let d1 := { d with tx_ready := false }
      let pr := d1.tx_ringbuf.put tx_data
      (.ok pr.2, some { d1 with tx_ringbuf := pr.1 }, true)

/-- `uart_mux_fifo_read(dev, rx_data, size)`: the buffered read path.
Result: the returned bytes (their length is the returned count) or an
error, and the device state after the call. -/
def uart_mux_fifo_read (dev : Option UartMuxDevData) (size : Nat) :
    Except Errno (List Nat) × Option UartMuxDevData :=
  match dev with
  | none => (.error .EINVAL, none)
  | some d =>
    if d.dev = none then (.error .ENOENT, some d)
    else
      let pr := d.rx_ringbuf.get size
      let d1 := { d with rx_ringbuf := pr.1 }
      let d2 := if d1.rx_ringbuf.isEmpty then { d1 with rx_ready := false } else d1
      (.ok pr.2, some d2)

/-- `uart_mux_recv(mux, dlci, data, len)`: bytes delivered by the GSM
mux for this channel. Result: the count stored (the returned value),
the device state after the call, and whether the callback-dispatch work
item was submitted to the mux work queue. -/
def uart_mux_recv (d : UartMuxDevData) (data : List Nat) :
    Nat × UartMuxDevData × Bool :=
  let pr := d.rx_ringbuf.put data
  let d1 := { d with rx_ringbuf := pr.1, rx_ready := true }
  (pr.2, d1, d1.cb && d1.rx_enabled)

/-- `uart_mux_poll_out(dev, out_char)`: the unbuffered write path.
Result: the device state after the call, the `gsm_dlci_send` calls made
(channel handle and bytes), and whether any work item was submitted to
the mux work queue (never, on this path). -/
def uart_mux_poll_out (d : UartMuxDevData) (out_char : Nat) :
    UartMuxDevData × List (Option Nat × List Nat) × Bool :=
  if d.dev = none then (d, [], false)
  else (d, [(d.dlci, [out_char])], false)

/-- `uart_mux_irq_tx_enable`. Result: the device state after the call
and whether the callback-dispatch work item was submitted. -/
def uart_mux_irq_tx_enable (dev : Option UartMuxDevData) :
    Option UartMuxDevData × Bool :=
  match dev with
  | none => (none, false)
  | some d =>
    if d.dev = none then (some d, false)
    else
      let d1 := { d with tx_enabled := true }
      (some d1, d1.cb && d1.tx_ready)

/-- `uart_mux_irq_tx_disable`. -/
def uart_mux_irq_tx_disable (dev : Option UartMuxDevData) :
    Option UartMuxDevData :=
  match dev with
  | none => none
  | some d =>
    if d.dev = none then some d
    else some { d with tx_enabled := false }

/-- `uart_mux_irq_rx_enable`. Result: the device state after the call
and whether the callback-dispatch work item was submitted. -/
def uart_mux_irq_rx_enable (dev : Option UartMuxDevData) :
    Option UartMuxDevData × Bool :=
  match dev with
  | none => (none, false)
  | some d =>
    if d.dev = none then (some d, false)
    else
      let d1 := { d with rx_enabled := true }
      (some d1, d1.cb && d1.rx_ready)

/-- `uart_mux_irq_rx_disable`. -/
def uart_mux_irq_rx_disable (dev : Option UartMuxDevData) :
    Option UartMuxDevData :=
  match dev with
  | none => none
  | some d =>
    if d.dev = none then some d
    else some { d with rx_enabled := false }

/-- `uart_mux_irq_callback_set`: registering (or replacing) the
ISR-style callback; abstracted to recording whether one is set. -/
def uart_mux_irq_callback_set (d : UartMuxDevData) (cb : Bool) :
    UartMuxDevData :=
  { d with cb := cb }

/-- `uart_mux_init`: per-device boot initialization (device pointer set,
real UART cleared; list insertion and work-item setup carry no state
here). -/
def uart_mux_init (d : UartMuxDevData) (dev_id : Nat) : UartMuxDevData :=
  { d with dev := some dev_id, real_uart := none }

/-- `dlci_created_cb`: connection status notification from the GSM mux
(the attach-notification callback invocation itself is an external
effect). -/
def dlci_created_cb (d : UartMuxDevData) (connected : Bool) :
    UartMuxDevData :=
  if connected then { d with status := .CONNECTED }
  else { d with status := .DISCONNECTED }

/-- The one-time-init block of `init_real_uart` guarded by
`atomic_cas(&real_uart->init_done, false, true)`: on a won CAS, create
the GSM mux instance (`mux_create` is the oracle result of
`gsm_mux_create`); if that yields NULL, roll back (clear the bound
uart, leave the created-instance field NULL, clear the init flag) and
fail with `-ENOMEM`; otherwise record the instance, keep the flag set
and set up the hardware (interrupt wiring is an external effect). `ru`
is the slot value at index `i` of `pool`. -/
def init_real_uart_once (pool : List UartMux) (i : Nat) (ru : UartMux)
    (mux_create : Option Nat) : Except Errno Nat × List UartMux :=
  if ru.init_done = false then
    match mux_create with
    | none =>
      (.error .ENOMEM,
       pool.set i { ru with uart := none, mux := none, init_done := false })
    | some m =>
      (.ok i, pool.set i { ru with mux := some m, init_done := true })
  else (.ok i, pool)

/-- `init_real_uart(mux, uart, &mux_uart)`: find the real-UART slot
already bound to `uart`; failing that, claim the first unbound slot;
failing that, `-ENOENT`. Then run the CAS-guarded one-time init. On
success the returned index is the resolved slot (the `*mux_uart` out
parameter). -/
def init_real_uart (pool : List UartMux) (uart : Nat)
    (mux_create : Option Nat) : Except Errno Nat × List UartMux :=
  match find_idx (fun ru => ru.uart == some uart) pool with
  | some i => init_real_uart_once pool i (pool.getD i default) mux_create
  | none =>
    match find_idx (fun ru => ru.uart == none) pool with
    | some i =>
      let ru := { pool.getD i default with uart := some uart }
      init_real_uart_once (pool.set i ru) i ru mux_create
    | none => (.error .ENOENT, pool)

/-- `attach(mux_uart, uart, dlci_address, cb, user_data)`: bind a muxed
UART to a real UART and create its DLCI. `devlist` is the registered
device list, `pool` the real-UART pool, `mux_create` the oracle result
of `gsm_mux_create` and `dlci_create` the oracle result of
`gsm_dlci_create`. Result: the returned status, the device list after
the call and the pool after the call. -/
def attach (devlist : List UartMuxDevData) (pool : List UartMux)
    (mux_uart : Option Nat) (uart : Option Nat) (dlci_address : Nat)
    (cb : Bool) (mux_create : Option Nat) (dlci_create : Except Errno Nat) :
    Except Errno Unit × List UartMuxDevData × List UartMux :=
  match mux_uart, uart with
  | none, _ => (.error .EINVAL, devlist, pool)
  | some _, none => (.error .EINVAL, devlist, pool)
  | some mu, some u =>
    match find_idx (fun d => d.dev == some mu) devlist with
    | none => (.error .ENOENT, devlist, pool)
    | some j =>
      match init_real_uart pool u mux_create with
      | (.error e, pool1) => (.error e, devlist, pool1)
      | (.ok i, pool1) =>
        let d1 := { devlist.getD j default with
                      real_uart := some i, tx_ready := true,
                      tx_enabled := true, rx_enabled := true,
                      attach_cb := cb, status := UartMuxStatus.CONFIGURED }
        match dlci_create with
        | .error e => (.error e, devlist.set j d1, pool1)
        | .ok hdl =>
          (.ok (), devlist.set j { d1 with dlci := some hdl }, pool1)

/-- `uart_mux_alloc`: claim the first device-list slot not yet in use;
return its device pointer (NULL when the pool is exhausted) and the
device list after the call. -/
def uart_mux_alloc (devlist : List UartMuxDevData) :
    Option Nat × List UartMuxDevData :=
  match find_idx (fun d => !d.in_use) devlist with
  | none => (none, devlist)
  | some j =>
    ((devlist.getD j default).dev,
     devlist.set j { devlist.getD j default with in_use := true })

/-- `find_idx` returns `none` when no element satisfies the scan
predicate. -/
theorem find_idx_eq_none {α : Type} (p : α → Bool) (l : List α)
    (h : ∀ x ∈ l, p x = false) : find_idx p l = none := by
  induction l with
  | nil => rfl
  | cons x xs ih =>
    have hx : p x = false := h x (List.mem_cons_self x xs)
    have hxs : find_idx p xs = none :=
      ih fun y hy => h y (List.mem_cons_of_mem x hy)
    simp [find_idx, hx, hxs]

/-- `find_idx` returns the first index whose element satisfies the scan
predicate. -/
theorem find_idx_first {α : Type} (p : α → Bool) (l : List α) (j : Nat)
    (d0 : α) (hj : j < l.length) (hpj : p (l.getD j d0) = true)
    (hlt : ∀ k, k < j → p (l.getD k d0) = false) :
    find_idx p l = some j := by
  induction l generalizing j with
  | nil => simp at hj
  | cons x xs ih =>
    cases j with
    | zero =>
      simp only [List.getD_cons_zero] at hpj
      simp [find_idx, hpj]
    | succ m =>
      have hx : p x = false := by
        have h0 := hlt 0 (Nat.succ_pos m)
        simpa using h0
      have hxs : find_idx p xs = some m := by
        apply ih m
        · simpa using hj
        · simpa using hpj
        · intro k hk
          have hk1 := hlt (k + 1) (Nat.succ_lt_succ hk)
          simpa using hk1
      simp [find_idx, hx, hxs]

/-- `getD` after an in-place `set`. -/
theorem getD_set_eq {α : Type} (l : List α) (i k : Nat) (a d0 : α) :
    (l.set i a).getD k d0 =
      if i = k ∧ k < l.length then a else l.getD k d0 := by
  induction l generalizing i k with
  | nil => simp
  | cons x xs ih =>
    cases i with
    | zero =>
      cases k with
      | zero => simp
      | succ m => simp
    | succ n =>
      cases k with
      | zero => simp
      | succ m =>
        simp only [List.set_cons_succ, List.getD_cons_succ, List.length_cons]
        rw [ih n m]
        by_cases h : n = m ∧ m < xs.length
        · rw [if_pos h, if_pos (by omega)]
        · rw [if_neg h, if_neg (by omega)]

/-- C1: buffered write on a device whose status is not Connected
returns 0 and has no side effects: the device state (in particular the
TX ring buffer and `tx_ready`) is unchanged and no TX-drain work item
is submitted. -/
theorem uart_mux_fifo_fill_not_connected_noop
    (d : UartMuxDevData) (bytes : List Nat)
    (hdev : d.dev ≠ none) (hst : d.status ≠ UartMuxStatus.CONNECTED) :
    uart_mux_fifo_fill (some d) bytes = (.ok 0, some d, false) := by
  simp [uart_mux_fifo_fill, hdev, hst]

/-- Witness for C1 at a concrete configured-but-not-connected device. -/
theorem uart_mux_fifo_fill_not_connected_noop_witness :
    uart_mux_fifo_fill
      (some ⟨some 1, some 0, false, false, ⟨4, []⟩, ⟨4, []⟩,
             UartMuxStatus.CONFIGURED, some 2, true, true, false, true, true⟩)
      [10, 11] =
      (.ok 0,
       some ⟨some 1, some 0, false, false, ⟨4, []⟩, ⟨4, []⟩,
             UartMuxStatus.CONFIGURED, some 2, true, true, false, true, true⟩,
       false) :=
  uart_mux_fifo_fill_not_connected_noop _ _ (by decide) (by decide)

/-- C6: buffered read removes and returns the first `min (size, bytes
available)` bytes of the RX ring buffer in FIFO order, and clears
`rx_ready` exactly when the RX ring buffer is empty after the read
(otherwise `rx_ready` is left as it was). -/
theorem uart_mux_fifo_read_spec (d : UartMuxDevData) (size : Nat)
    (hdev : d.dev ≠ none) :
    uart_mux_fifo_read (some d) size =
      (.ok (d.rx_ringbuf.data.take size),
       some { d with
                rx_ringbuf :=
                  ⟨d.rx_ringbuf.capacity, d.rx_ringbuf.data.drop size⟩,
                rx_ready :=
                  if (d.rx_ringbuf.data.drop size).isEmpty then false
                  else d.rx_ready })
    ∧ (d.rx_ringbuf.data.take size).length =
        min size d.rx_ringbuf.data.length := by
  refine ⟨?_, by simp⟩
  simp only [uart_mux_fifo_read, RingBuf.get, RingBuf.isEmpty,
    if_neg hdev]
  split <;> rfl

/-- Witness for C6: reading 2 bytes of 3 leaves one byte buffered and
keeps `rx_ready`; the removed bytes are the first two in order. -/
theorem uart_mux_fifo_read_spec_witness :
    uart_mux_fifo_read
      (some ⟨some 1, some 0, false, false, ⟨4, []⟩, ⟨4, [7, 8, 9]⟩,
             UartMuxStatus.CONNECTED, some 2, true, true, true, true, true⟩)
      2 =
      (.ok [7, 8],
       some ⟨some 1, some 0, false, false, ⟨4, []⟩, ⟨4, [9]⟩,
             UartMuxStatus.CONNECTED, some 2, true, true, true, true, true⟩) := by
  have h := (uart_mux_fifo_read_spec
      ⟨some 1, some 0, false, false, ⟨4, []⟩, ⟨4, [7, 8, 9]⟩,
       UartMuxStatus.CONNECTED, some 2, true, true, true, true, true⟩
      2 (by decide)).1
  simpa using h

/-- C9: the unbuffered single-byte write forwards the byte directly to
`gsm_dlci_send` for this channel's DLCI, leaves the whole device state
(TX ring buffer and all flags included) unchanged and submits no work
item. -/
theorem uart_mux_poll_out_direct (d : UartMuxDevData) (b : Nat)
    (hdev : d.dev ≠ none) :
    uart_mux_poll_out d b = (d, [(d.dlci, [b])], false) := by
  simp [uart_mux_poll_out, hdev]

/-- Witness for C9 at a concrete connected device. -/
theorem uart_mux_poll_out_direct_witness :
    uart_mux_poll_out
      ⟨some 1, some 0, true, false, ⟨4, [3]⟩, ⟨4, []⟩,
       UartMuxStatus.CONNECTED, some 2, true, true, false, true, true⟩ 65 =
      (⟨some 1, some 0, true, false, ⟨4, [3]⟩, ⟨4, []⟩,
        UartMuxStatus.CONNECTED, some 2, true, true, false, true, true⟩,
       [(some 2, [65])], false) :=
  uart_mux_poll_out_direct _ 65 (by decide)

/-- C10: delivery into a full RX ring buffer stores zero bytes, still
sets `rx_ready` to true, and still submits the callback-dispatch work
item exactly when a callback is registered and `rx_enabled` holds. -/
theorem uart_mux_recv_full_sets_rx_ready (d : UartMuxDevData)
    (data : List Nat) (hfull : d.rx_ringbuf.space = 0) :
    uart_mux_recv d data =
      (0, { d with rx_ready := true }, d.cb && d.rx_enabled) := by
  simp [uart_mux_recv, RingBuf.put, hfull]

/-- Witness for C10: a full 2-byte RX buffer, a registered callback and
`rx_enabled`: nothing stored, `rx_ready` set, dispatch submitted. -/
theorem uart_mux_recv_full_sets_rx_ready_witness :
    uart_mux_recv
      ⟨some 1, some 0, true, false, ⟨4, []⟩, ⟨2, [7, 8]⟩,
       UartMuxStatus.CONNECTED, some 2, true, true, false, true, true⟩
      [9, 10] =
      (0, ⟨some 1, some 0, true, false, ⟨4, []⟩, ⟨2, [7, 8]⟩,
           UartMuxStatus.CONNECTED, some 2, true, true, true, true, true⟩,
       true) := by
  have h := uart_mux_recv_full_sets_rx_ready
      ⟨some 1, some 0, true, false, ⟨4, []⟩, ⟨2, [7, 8]⟩,
       UartMuxStatus.CONNECTED, some 2, true, true, false, true, true⟩
      [9, 10] (by decide)
  simpa using h

/-- C3: when the requested hardware UART matches no already-bound
real-UART slot and every slot in the pool is bound to some other UART,
`init_real_uart` fails (the returned error is `-ENOENT`, the code this
driver uses for pool exhaustion) and leaves the pool unchanged. -/
theorem init_real_uart_pool_full_fails
    (pool : List UartMux) (uart : Nat) (mux_create : Option Nat)
    (hbound : ∀ ru ∈ pool, ru.uart ≠ some uart)
    (hfull : ∀ ru ∈ pool, ru.uart ≠ none) :
    init_real_uart pool uart mux_create = (.error .ENOENT, pool) := by
  have h1 : find_idx (fun ru => ru.uart == some uart) pool = none :=
    find_idx_eq_none _ _ fun ru hru => by
      simpa using hbound ru hru
  have h2 : find_idx (fun ru => ru.uart == none) pool = none :=
    find_idx_eq_none _ _ fun ru hru => by
      simpa using hfull ru hru
  simp [init_real_uart, h1, h2]

/-- Witness for C3: a one-slot pool bound to UART 1, attach request for
UART 2. -/
theorem init_real_uart_pool_full_fails_witness :
    init_real_uart [⟨some 1, none, false, ⟨4, []⟩⟩] 2 none =
      (.error .ENOENT, [⟨some 1, none, false, ⟨4, []⟩⟩]) :=
  init_real_uart_pool_full_fails [⟨some 1, none, false, ⟨4, []⟩⟩] 2 none
    (by decide) (by decide)

/-- C5: when the one-time init wins the CAS on `init_done` (the flag
was still clear) but `gsm_mux_create` returns NULL, `init_real_uart`
rolls the slot back — the bound UART is cleared and the init flag is
clear again — and reports `-ENOMEM`. Both discovery paths are covered:
a slot already bound to the UART, and a freshly claimed unbound slot. -/
theorem init_real_uart_create_fail_rollback
    (pool : List UartMux) (uart i : Nat)
    (hdone : (pool.getD i default).init_done = false) :
    (find_idx (fun ru => ru.uart == some uart) pool = some i →
      init_real_uart pool uart none =
        (.error .ENOMEM,
         pool.set i { pool.getD i default with
                        uart := none, mux := none, init_done := false }))
  ∧ (find_idx (fun ru => ru.uart == some uart) pool = none →
     find_idx (fun ru => ru.uart == none) pool = some i →
      init_real_uart pool uart none =
        (.error .ENOMEM,
         pool.set i { pool.getD i default with
                        uart := none, mux := none, init_done := false })) := by
  have hdone2 : (pool[i]?.getD default).init_done = false := by
    rw [← List.getD_eq_getElem?_getD]; exact hdone
  constructor
  · intro h1
    simp [init_real_uart, h1, init_real_uart_once, hdone, hdone2]
  · intro h1 h2
    simp [init_real_uart, h1, h2, init_real_uart_once, hdone, hdone2,
      List.set_set]

/-- Witness for C5: a slot already bound to UART 5 with the init flag
clear; adapter creation fails, the slot is rolled back. -/
theorem init_real_uart_create_fail_rollback_witness :
    init_real_uart [⟨some 5, none, false, ⟨4, []⟩⟩] 5 none =
      (.error .ENOMEM,
       [(⟨some 5, none, false, ⟨4, []⟩⟩ : UartMux)].set 0
         { ([(⟨some 5, none, false, ⟨4, []⟩⟩ : UartMux)].getD 0 default) with
             uart := none, mux := none, init_done := false }) :=
  (init_real_uart_create_fail_rollback [⟨some 5, none, false, ⟨4, []⟩⟩] 5 0
      (by decide)).1 (by decide)

/-- C7 counterexample: an attached device with `tx_ready` already true
but no registered callback — re-enabling TX submits no
callback-dispatch work item, so the claim (which omits the registered
callback) fails as stated. -/
theorem uart_mux_irq_tx_enable_no_cb_cex :
    (uart_mux_irq_tx_enable
        (some ⟨some 1, some 0, false, true, ⟨4, []⟩, ⟨4, []⟩,
               UartMuxStatus.CONNECTED, some 2, true, true, false, true,
               true⟩)).2 = false ∧
    (⟨some 1, some 0, false, true, ⟨4, []⟩, ⟨4, []⟩,
      UartMuxStatus.CONNECTED, some 2, true, true, false, true,
      true⟩ : UartMuxDevData).tx_ready = true := by decide

/-- C7 amended: on a device with a registered callback, re-enabling TX
while `tx_ready` is already true immediately submits the
callback-dispatch work item, and symmetrically re-enabling RX while
`rx_ready` is already true does too. -/
theorem uart_mux_irq_enable_ready_resubmits (d : UartMuxDevData)
    (hdev : d.dev ≠ none) (hcb : d.cb = true) :
    (d.tx_ready = true →
      uart_mux_irq_tx_enable (some d) =
        (some { d with tx_enabled := true }, true))
  ∧ (d.rx_ready = true →
      uart_mux_irq_rx_enable (some d) =
        (some { d with rx_enabled := true }, true)) := by
  constructor
  · intro h
    simp [uart_mux_irq_tx_enable, hdev, hcb, h]
  · intro h
    simp [uart_mux_irq_rx_enable, hdev, hcb, h]

/-- Witness for the amended C7 at a concrete device with callback
registered and both ready flags set. -/
theorem uart_mux_irq_enable_ready_resubmits_witness :
    uart_mux_irq_tx_enable
        (some ⟨some 1, some 0, true, true, ⟨4, []⟩, ⟨4, []⟩,
               UartMuxStatus.CONNECTED, some 2, false, false, true, true,
               true⟩) =
      (some ⟨some 1, some 0, true, true, ⟨4, []⟩, ⟨4, []⟩,
             UartMuxStatus.CONNECTED, some 2, false, true, true, true,
             true⟩, true)
  ∧ uart_mux_irq_rx_enable
        (some ⟨some 1, some 0, true, true, ⟨4, []⟩, ⟨4, []⟩,
               UartMuxStatus.CONNECTED, some 2, false, false, true, true,
               true⟩) =
      (some ⟨some 1, some 0, true, true, ⟨4, []⟩, ⟨4, []⟩,
             UartMuxStatus.CONNECTED, some 2, true, false, true, true,
             true⟩, true) := by
  have h := uart_mux_irq_enable_ready_resubmits
      ⟨some 1, some 0, true, true, ⟨4, []⟩, ⟨4, []⟩,
       UartMuxStatus.CONNECTED, some 2, false, false, true, true, true⟩
      (by decide) (by decide)
  exact ⟨by simpa using h.1 (by decide), by simpa using h.2 (by decide)⟩

/-- C2 counterexample: a connected channel whose RX ring buffer already
holds a byte. The delivered byte `7` fits in the free space, yet
reading back one byte (at least the length of the delivered list)
returns the previously buffered byte `9`, not the delivered one: the
round trip as claimed fails when the buffer is not empty. -/
theorem uart_mux_recv_read_roundtrip_cex :
    ([7].length ≤
        (⟨some 1, some 0, false, false, ⟨4, []⟩, ⟨4, [9]⟩,
          UartMuxStatus.CONNECTED, some 2, true, true, true, true,
          true⟩ : UartMuxDevData).rx_ringbuf.space)
  ∧ (uart_mux_fifo_read
        (some (uart_mux_recv
            ⟨some 1, some 0, false, false, ⟨4, []⟩, ⟨4, [9]⟩,
             UartMuxStatus.CONNECTED, some 2, true, true, true, true, true⟩
            [7]).2.1) 1).1 ≠ Except.ok [7] := by decide

/-- C2 amended: the round trip restricted to a channel whose RX ring
buffer is initially empty. Delivering `bytes` and then reading `n ≥
bytes.length` bytes returns exactly the stored prefix — all of `bytes`
in order when they fit the buffer (whose free space is then its
capacity), otherwise the prefix that fit, the excess dropped; `deliver`
reports the stored count. -/
theorem uart_mux_recv_read_roundtrip_from_empty
    (d : UartMuxDevData) (bytes : List Nat) (n : Nat)
    (hdev : d.dev ≠ none) (hst : d.status = UartMuxStatus.CONNECTED)
    (hempty : d.rx_ringbuf.data = []) (hn : bytes.length ≤ n) :
    (uart_mux_fifo_read (some (uart_mux_recv d bytes).2.1) n).1 =
      .ok (bytes.take d.rx_ringbuf.capacity)
  ∧ (uart_mux_recv d bytes).1 = min d.rx_ringbuf.capacity bytes.length
  ∧ (bytes.length ≤ d.rx_ringbuf.capacity →
      (uart_mux_fifo_read (some (uart_mux_recv d bytes).2.1) n).1 =
        .ok bytes) := by
  have hd1 : (uart_mux_recv d bytes).2.1 =
      { d with
          rx_ringbuf :=
            ⟨d.rx_ringbuf.capacity, bytes.take d.rx_ringbuf.capacity⟩,
          rx_ready := true } := by
    simp [uart_mux_recv, RingBuf.put, RingBuf.space, hempty]
  have hw : (uart_mux_recv d bytes).1 =
      min d.rx_ringbuf.capacity bytes.length := by
    simp [uart_mux_recv, RingBuf.put, RingBuf.space, hempty]
  have hlen : (bytes.take d.rx_ringbuf.capacity).length ≤ n := by
    simp only [List.length_take]
    omega
  have hread : (uart_mux_fifo_read (some (uart_mux_recv d bytes).2.1) n).1 =
      .ok (bytes.take d.rx_ringbuf.capacity) := by
    rw [hd1]
    simp only [uart_mux_fifo_read, RingBuf.get, if_neg hdev]
    rw [List.take_of_length_le hlen]
  exact ⟨hread, hw, fun hcap => by
    rw [hread, List.take_of_length_le hcap]⟩

/-- Witness for the amended C2: capacity-4 empty buffer, three bytes
delivered, read back identically (and the fitting case coincides). -/
theorem uart_mux_recv_read_roundtrip_from_empty_witness :
    (uart_mux_fifo_read
        (some (uart_mux_recv
            ⟨some 1, some 0, false, false, ⟨4, []⟩, ⟨4, []⟩,
             UartMuxStatus.CONNECTED, some 2, true, true, false, true, true⟩
            [65, 66, 67]).2.1) 10).1 = .ok [65, 66, 67] := by
  have h := (uart_mux_recv_read_roundtrip_from_empty
      ⟨some 1, some 0, false, false, ⟨4, []⟩, ⟨4, []⟩,
       UartMuxStatus.CONNECTED, some 2, true, true, false, true, true⟩
      [65, 66, 67] 10 (by decide) (by decide) (by decide) (by decide)).2.2
  exact h (by decide)

/-- C4 counterexample: a registered device and a fresh real-UART slot;
the GSM mux instance is created but `gsm_dlci_create` fails with
`-ENOMEM`. `attach` returns the error, yet the device's status has
moved from Unknown to Configured and `tx_ready` has been set — the
state updates were not performed only on success. -/
theorem attach_dlci_create_fail_cex :
    (attach
        [⟨some 1, none, false, false, ⟨4, []⟩, ⟨4, []⟩,
          UartMuxStatus.UNKNOWN, none, false, false, false, false, true⟩]
        [⟨none, none, false, ⟨4, []⟩⟩]
        (some 1) (some 2) 3 false (some 7) (.error .ENOMEM)).1 =
      .error .ENOMEM
  ∧ (((attach
        [⟨some 1, none, false, false, ⟨4, []⟩, ⟨4, []⟩,
          UartMuxStatus.UNKNOWN, none, false, false, false, false, true⟩]
        [⟨none, none, false, ⟨4, []⟩⟩]
        (some 1) (some 2) 3 false (some 7)
        (.error .ENOMEM)).2.1.getD 0 default).status =
      UartMuxStatus.CONFIGURED)
  ∧ (((attach
        [⟨some 1, none, false, false, ⟨4, []⟩, ⟨4, []⟩,
          UartMuxStatus.UNKNOWN, none, false, false, false, false, true⟩]
        [⟨none, none, false, ⟨4, []⟩⟩]
        (some 1) (some 2) 3 false (some 7)
        (.error .ENOMEM)).2.1.getD 0 default).tx_ready = true) := by decide

/-- C4 amended: `attach` records the PhysicalEndpoint binding, sets
status to Configured and sets `rx_enabled`, `tx_enabled` and `tx_ready`
true before requesting DLCI creation from the adapter; when
`gsm_dlci_create` fails, `attach` returns that error to the caller and
those state updates persist. -/
theorem attach_dlci_create_fail_state_persists
    (devlist : List UartMuxDevData) (pool pool1 : List UartMux)
    (mu u addr : Nat) (acb : Bool) (mux_create : Option Nat)
    (e : Errno) (j i : Nat)
    (hfind : find_idx (fun d => d.dev == some mu) devlist = some j)
    (hinit : init_real_uart pool u mux_create = (.ok i, pool1)) :
    attach devlist pool (some mu) (some u) addr acb mux_create (.error e) =
      (.error e,
       devlist.set j { devlist.getD j default with
                         real_uart := some i, tx_ready := true,
                         tx_enabled := true, rx_enabled := true,
                         attach_cb := acb,
                         status := UartMuxStatus.CONFIGURED },
       pool1) := by
  simp [attach, hfind, hinit]

/-- Witness for the amended C4 at the concrete configuration of the
counterexample scenario. -/
theorem attach_dlci_create_fail_state_persists_witness :
    attach
        [⟨some 1, none, false, false, ⟨4, []⟩, ⟨4, []⟩,
          UartMuxStatus.UNKNOWN, none, false, false, false, false, true⟩]
        [⟨none, none, false, ⟨4, []⟩⟩]
        (some 1) (some 2) 3 false (some 7) (.error .ENOMEM) =
      (.error .ENOMEM,
       [(⟨some 1, none, false, false, ⟨4, []⟩, ⟨4, []⟩,
          UartMuxStatus.UNKNOWN, none, false, false, false, false,
          true⟩ : UartMuxDevData)].set 0
         { ([(⟨some 1, none, false, false, ⟨4, []⟩, ⟨4, []⟩,
               UartMuxStatus.UNKNOWN, none, false, false, false, false,
               true⟩ : UartMuxDevData)].getD 0 default) with
             real_uart := some 0, tx_ready := true, tx_enabled := true,
             rx_enabled := true, attach_cb := false,
             status := UartMuxStatus.CONFIGURED },
       [⟨some 2, some 7, true, ⟨4, []⟩⟩]) :=
  attach_dlci_create_fail_state_persists
    [⟨some 1, none, false, false, ⟨4, []⟩, ⟨4, []⟩,
      UartMuxStatus.UNKNOWN, none, false, false, false, false, true⟩]
    [⟨none, none, false, ⟨4, []⟩⟩] [⟨some 2, some 7, true, ⟨4, []⟩⟩]
    1 2 3 false (some 7) .ENOMEM 0 0 (by decide) (by decide)

/-- C8: the `in_use` flag is monotone. `uart_mux_alloc` flips it from
false to true on the first free slot (returning that slot's device
pointer) and never clears it, and no other operation of the driver —
buffered write/read, delivery, unbuffered write, readiness
enable/disable, callback registration, device init, connection
notification, attach — ever changes `in_use` at all. -/
theorem uart_mux_in_use_monotone :
    (∀ (l : List UartMuxDevData) (j : Nat), j < l.length →
      (l.getD j default).in_use = false →
      (∀ k, k < j → (l.getD k default).in_use = true) →
      uart_mux_alloc l =
        ((l.getD j default).dev,
         l.set j { l.getD j default with in_use := true }))
  ∧ (∀ (l : List UartMuxDevData) (k : Nat),
      (l.getD k default).in_use = true →
      (((uart_mux_alloc l).2.getD k default).in_use = true))
  ∧ (∀ (d : UartMuxDevData) (bytes : List Nat),
      ((uart_mux_fifo_fill (some d) bytes).2.1.getD default).in_use =
        d.in_use)
  ∧ (∀ (d : UartMuxDevData) (n : Nat),
      ((uart_mux_fifo_read (some d) n).2.getD default).in_use = d.in_use)
  ∧ (∀ (d : UartMuxDevData) (bytes : List Nat),
      ((uart_mux_recv d bytes).2.1).in_use = d.in_use)
  ∧ (∀ (d : UartMuxDevData) (b : Nat),
      ((uart_mux_poll_out d b).1).in_use = d.in_use)
  ∧ (∀ (d : UartMuxDevData),
      (((uart_mux_irq_tx_enable (some d)).1).getD default).in_use =
        d.in_use)
  ∧ (∀ (d : UartMuxDevData),
      ((uart_mux_irq_tx_disable (some d)).getD default).in_use = d.in_use)
  ∧ (∀ (d : UartMuxDevData),
      (((uart_mux_irq_rx_enable (some d)).1).getD default).in_use =
        d.in_use)
  ∧ (∀ (d : UartMuxDevData),
      ((uart_mux_irq_rx_disable (some d)).getD default).in_use = d.in_use)
  ∧ (∀ (d : UartMuxDevData) (c : Bool),
      (uart_mux_irq_callback_set d c).in_use = d.in_use)
  ∧ (∀ (d : UartMuxDevData) (i : Nat),
      (uart_mux_init d i).in_use = d.in_use)
  ∧ (∀ (d : UartMuxDevData) (c : Bool),
      (dlci_created_cb d c).in_use = d.in_use)
  ∧ (∀ (l : List UartMuxDevData) (pool : List UartMux) (mu u addr : Nat)
        (acb : Bool) (mc : Option Nat) (dc : Except Errno Nat) (k : Nat),
      (((attach l pool (some mu) (some u) addr acb mc dc).2.1).getD k
          default).in_use = (l.getD k default).in_use) := by
  refine ⟨?_, ?_, ?_, ?_, ?_, ?_, ?_, ?_, ?_, ?_, ?_, ?_, ?_, ?_⟩
  · intro l j hj hfree hprev
    have hf : find_idx (fun d => !d.in_use) l = some j := by
      apply find_idx_first (fun d => !d.in_use) l j default hj
      · simp [← List.getD_eq_getElem?_getD, hfree]
      · intro k hk
        simp [← List.getD_eq_getElem?_getD, hprev k hk]
    simp [uart_mux_alloc, hf]
  · intro l k hk
    cases hf : find_idx (fun d => !d.in_use) l with
    | none => simpa [uart_mux_alloc, hf] using hk
    | some j =>
      simp only [uart_mux_alloc, hf]
      rw [getD_set_eq]
      split
      · rfl
      · exact hk
  · intro d bytes
    simp only [uart_mux_fifo_fill]
    split
    · simp
    · split <;> simp
  · intro d n
    simp only [uart_mux_fifo_read]
    split <;> simp
    split <;> rfl
  · intro d bytes
    simp [uart_mux_recv]
  · intro d b
    simp only [uart_mux_poll_out]
    split <;> rfl
  · intro d
    simp only [uart_mux_irq_tx_enable]
    split <;> simp
  · intro d
    simp only [uart_mux_irq_tx_disable]
    split <;> simp
  · intro d
    simp only [uart_mux_irq_rx_enable]
    split <;> simp
  · intro d
    simp only [uart_mux_irq_rx_disable]
    split <;> simp
  · intro d c
    rfl
  · intro d i
    rfl
  · intro d c
    simp only [dlci_created_cb]
    split <;> rfl
  · intro l pool mu u addr acb mc dc k
    cases hf : find_idx (fun d => d.dev == some mu) l with
    | none => simp [attach, hf]
    | some j =>
      rcases hx : init_real_uart pool u mc with ⟨r, pool1⟩
      cases r with
      | error e => simp [attach, hf, hx]
      | ok i =>
        cases dc with
        | error e =>
          simp only [attach, hf, hx]
          rw [getD_set_eq]
          split
          next h => rw [← h.1]
          next => rfl
        | ok hdl =>
          simp only [attach, hf, hx]
          rw [getD_set_eq]
          split
          next h => rw [← h.1]
          next => rfl

/-- Witness for C8: allocation of the single free slot of a one-slot
list, and preservation of an already-allocated slot. -/
theorem uart_mux_in_use_monotone_witness :
    uart_mux_alloc
        [⟨some 3, none, false, false, ⟨4, []⟩, ⟨4, []⟩,
          UartMuxStatus.UNKNOWN, none, false, false, false, false, false⟩] =
      (([(⟨some 3, none, false, false, ⟨4, []⟩, ⟨4, []⟩,
           UartMuxStatus.UNKNOWN, none, false, false, false, false,
           false⟩ : UartMuxDevData)].getD 0 default).dev,
       [(⟨some 3, none, false, false, ⟨4, []⟩, ⟨4, []⟩,
          UartMuxStatus.UNKNOWN, none, false, false, false, false,
          false⟩ : UartMuxDevData)].set 0
         { ([(⟨some 3, none, false, false, ⟨4, []⟩, ⟨4, []⟩,
               UartMuxStatus.UNKNOWN, none, false, false, false, false,
               false⟩ : UartMuxDevData)].getD 0 default) with
             in_use := true })
  ∧ (((uart_mux_alloc
        [⟨some 4, none, false, false, ⟨4, []⟩, ⟨4, []⟩,
          UartMuxStatus.UNKNOWN, none, false, false, false, false,
          true⟩]).2.getD 0 default).in_use = true) :=
  ⟨uart_mux_in_use_monotone.1
      [⟨some 3, none, false, false, ⟨4, []⟩, ⟨4, []⟩,
        UartMuxStatus.UNKNOWN, none, false, false, false, false, false⟩]
      0 (by decide) (by decide) (fun k hk => absurd hk (Nat.not_lt_zero k)),
   uart_mux_in_use_monotone.2.1
      [⟨some 4, none, false, false, ⟨4, []⟩, ⟨4, []⟩,
        UartMuxStatus.UNKNOWN, none, false, false, false, false, true⟩]
      0 (by decide)⟩
